import Mathlib

/-!
Verification development for the WRS feed-reader library (`readlib.py`).

The embedding models the module as follows:

* Python runtime errors that the script can raise are collected in `PyError`.
* A feedparser `time.struct_time` 9-tuple is represented by the epoch value
  that `time.mktime` assigns to it (`TimeStruct.epoch`); `mktime` is then the
  projection.  `datetime.datetime.fromtimestamp` produces a `Datetime`
  carrying the epoch seconds, and `.date()` is modelled as the local calendar
  day number obtained by floor division by 86400 (a fixed-offset local
  timezone; the offset is absorbed into the epoch value).
* A feedparser entry attribute that the script probes with
  `hasattr(entry, f) and entry.f` is modelled by `PyField`: the attribute can
  be absent, present but `None` (falsy), or present with a value.  A 9-field
  `struct_time` is a nonempty tuple, hence always truthy when present.
* Fields read only through `entry.get(key, default)` are modelled as
  `Option` values read with `Option.getD`.
* The module-level generative-AI client: `readlib.py` binds the global name
  `client` only when `os.getenv("GOOGLE_API_KEY")` returns a truthy value and
  `genai.Client(...)` succeeds; otherwise the `try/except` block merely
  prints a warning and the name stays unbound.  We model the global by an
  `Option Client`; referencing an unbound global raises `NameError`, so the
  functions that read `client` return `Except.error PyError.nameError` in the
  `none` state.
* `__main__` calls `filter_articles_by_date_range` with four positional
  arguments.  Python binds positional arguments against the `def` signature
  and raises `TypeError` on an arity mismatch; `filter_articles_by_date_range_apply`
  models that binding step over a dynamic value type `PyVal`.
-/

set_option maxRecDepth 20000

namespace WRS

/-- Python runtime errors relevant to `readlib.py`. -/
inductive PyError where
  | nameError : PyError
  | typeError : PyError
  | otherError : PyError
deriving DecidableEq

/-- A `time.struct_time` 9-tuple, represented by its image under
`time.mktime` (epoch seconds, local time). -/
structure TimeStruct where
  epoch : Int
deriving DecidableEq

/-- Model of `time.mktime`: struct_time to epoch seconds. -/
def mktime (t : TimeStruct) : Int := t.epoch

/-- A `datetime.datetime` value, carrying its epoch seconds. -/
structure Datetime where
  ts : Int
deriving DecidableEq

/-- Model of `datetime.datetime.fromtimestamp` (fixed-offset local time). -/
def fromtimestamp (s : Int) : Datetime := Datetime.mk s

/-- Model of `datetime.date()`: the local calendar day number, discarding the
time of day (floor division, as Python's calendar conversion). -/
def Datetime.date (d : Datetime) : Int := Int.fdiv d.ts 86400

/-- A Python object attribute that may be absent, present but `None`, or
present with a value (as probed by `hasattr(x, f) and x.f`). -/
inductive PyField (α : Type) where
  | absent : PyField α
  | pyNone : PyField α
  | val : α → PyField α
deriving DecidableEq

/-- Truthiness of `hasattr(entry, f) and entry.f` for a `struct_time`-valued
attribute: a 9-field tuple is always truthy, `None` and a missing attribute
are falsy. -/
def PyField.truthy {α : Type} : PyField α → Bool
  | PyField.val _ => true
  | _ => false

/-- The value of the attribute when it is present and truthy. -/
def PyField.get? {α : Type} : PyField α → Option α
  | PyField.val a => some a
  | _ => none

/-- An opaque feedparser `content` block (the script only passes these
through, defaulting to the empty list). -/
structure ContentBlock where
  value : String
deriving DecidableEq

/-- An opaque feedparser tag object (the script passes the raw `tags` list
through as `keywords`). -/
structure FeedTag where
  term : String
deriving DecidableEq

/-- A feedparser entry, restricted to the fields `readlib.py` reads. -/
structure Entry where
  title : Option String
  link : Option String
  source : Option String
  summary : Option String
  content : Option (List ContentBlock)
  tags : Option (List FeedTag)
  published_parsed : PyField TimeStruct
  updated_parsed : PyField TimeStruct
deriving DecidableEq

/-- The article dictionary built at `readlib.py` lines 112-120; the structure
has exactly the seven fields of the dict literal, in source order. -/
structure Article where
  title : String
  url : String
  published_datetime : Datetime
  source : String
  summary : String
  content : List ContentBlock
  keywords : List FeedTag
deriving DecidableEq

/-- A parsed feed as returned by `feedparser.parse`: the bozo flag, the
reported `bozo_exception` (as text), and the recovered entries. -/
structure ParsedFeed where
  bozo : Bool
  bozo_exception : String
  entries : List Entry
deriving DecidableEq

/-- Outcome of the `feedparser.parse(feed_url)` call inside the `try` block:
either it returns a feed object or it raises. -/
inductive ParseOutcome where
  | parsed : ParsedFeed → ParseOutcome
  | raised : PyError → ParseOutcome
deriving DecidableEq

/-- Console messages printed by `get_articles_from_rss`. -/
inductive Msg where
  | bozoWarning : String → String → Msg
  | fetchFailure : String → PyError → Msg
deriving DecidableEq

/-- Model of `get_articles_from_rss` (readlib.py lines 49-73).  The parse
outcome is an input; the function returns the entry list together with the
messages it printed.  The `try/except Exception` wrapper converts any raised
error into a printed message and an empty list, so the result is always
`Except.ok`. -/
def get_articles_from_rss (feed_url : String) (outcome : ParseOutcome) :
    Except PyError (List Entry × List Msg) :=
  match outcome with
  | ParseOutcome.parsed parsed_feed =>
      let msgs := if parsed_feed.bozo then
          [Msg.bozoWarning feed_url parsed_feed.bozo_exception]
        else []
      Except.ok (parsed_feed.entries, msgs)
  | ParseOutcome.raised e =>
      Except.ok ([], [Msg.fetchFailure feed_url e])

/-- Date resolution of `filter_articles_by_date_range` (readlib.py lines
98-103): `published_parsed` is probed first, `updated_parsed` only when the
primary is absent or falsy. -/
def resolve_date_struct (entry : Entry) : Option TimeStruct :=
  if entry.published_parsed.truthy then entry.published_parsed.get?
  else if entry.updated_parsed.truthy then entry.updated_parsed.get?
  else none

/-- The dict literal of readlib.py lines 112-120, with the `entry.get`
defaults. -/
def mkArticle (entry : Entry) (published_datetime : Datetime) : Article :=
  { title := entry.title.getD "No title"
    url := entry.link.getD "No link"
    published_datetime := published_datetime
    source := entry.source.getD "Unknown source"
    summary := entry.summary.getD "No summary"
    content := entry.content.getD []
    keywords := entry.tags.getD [] }

/-- One iteration of the loop body of `filter_articles_by_date_range`
(readlib.py lines 92-120).  The dead keyword-filtering flag of lines 93-95
(`is_research = True`, never read) is omitted.  The chained comparison
`start_date <= published_datetime.date() <= end_date` is the conjunction of
the two inclusive bounds. -/
def filter_step (start_date end_date : Int) (filtered_articles : List Article)
    (entry : Entry) : List Article :=
  match resolve_date_struct entry with
  | some date_struct =>
      let published_datetime := fromtimestamp (mktime date_struct)
      if start_date ≤ published_datetime.date ∧ published_datetime.date ≤ end_date then
        filtered_articles ++ [mkArticle entry published_datetime]
      else filtered_articles
  | none => filtered_articles

/-- Model of `filter_articles_by_date_range` (readlib.py lines 75-121): the
loop appends to `filtered_articles`, starting from the empty list. -/
def filter_articles_by_date_range (articles : List Entry)
    (start_date end_date : Int) : List Article :=
  articles.foldl (filter_step start_date end_date) []

/-- The contribution of one entry to the filtered output: `some` record when
the entry resolves to a date inside the window, `none` otherwise. -/
def entryToArticle? (start_date end_date : Int) (entry : Entry) : Option Article :=
  match resolve_date_struct entry with
  | some date_struct =>
      if start_date ≤ (fromtimestamp (mktime date_struct)).date
          ∧ (fromtimestamp (mktime date_struct)).date ≤ end_date then
        some (mkArticle entry (fromtimestamp (mktime date_struct)))
      else none
  | none => none

/-- The model identifier of readlib.py line 28. -/
def model_name : String := "gemini-2.0-flash"

/-- The single-article prompt template of readlib.py lines 8-17, with the
interpolation slot written as \x7b\x7d. -/
def prompt : String :=
  "You are a helpful assistant that summarizes scientific articles. " ++
  "Here are the latest articles from a feed source:" ++
  "\x7b\x7d" ++
  "In a few sentences, answer the following questions:" ++
  "What type of article is this?" ++
  "What research area is this research about?" ++
  "what is the most important message of this publication?" ++
  "What applications does this research have?"

/-- The digest prompt template of readlib.py lines 19-26. -/
def prompt2 : String :=
  "You are a helpful assistant that summarizes scientific articles. " ++
  "Here are many summaries of a collection of articles." ++
  "\x7b\x7d" ++
  "In a few sentences and concise language, describe the major themes of these articles." ++
  "Provide links to a few important articles in [[number]](url)] style." ++
  "The links should be integrated into the text, not listed separately."

/-- Replacement of the first \x7b\x7d slot by the argument, over character
lists.  This models Python `str.format` with one positional argument for
templates that contain exactly one auto-numbered slot and no other brace
characters — which is established for `prompt` and `prompt2` below. -/
def substFirstSlot (arg : List Char) : List Char → List Char
  | [] => []
  | c :: rest =>
      if c = '\x7b' then
        match rest with
        | '\x7d' :: rest2 => arg ++ rest2
        | _ => c :: substFirstSlot arg rest
      else c :: substFirstSlot arg rest

/-- Model of `template.format(arg)` for the single-slot templates used by
`readlib.py`. -/
def pyformat (template : String) (arg : String) : String :=
  String.mk (substFirstSlot arg.data template.data)

/-- The generative-AI backend handle: `client.models.generate_content(model,
contents)` returning `response.text`. -/
structure Client where
  generate_content : String → String → String

/-- Module-level initialization of readlib.py lines 30-45: the global name
`client` is bound only when the environment variable is present, non-empty
(Python truthiness of the string) and `genai.Client` does not raise; every
other path prints a warning and leaves the name unbound (`none`). -/
def init_client (mk : String → Except PyError Client)
    (google_api_key : Option String) : Option Client :=
  match google_api_key with
  | none => none
  | some k =>
      if k = "" then none
      else
        match mk k with
        | Except.ok c => some c
        | Except.error _ => none

/-- Model of `summarize_article` (readlib.py lines 123-140).  The function
reads the module-level global `client`; when that name is unbound the lookup
raises `NameError`.  The entry argument is represented by its string
rendering, since `prompt.format(article_entry)` stringifies it. -/
def summarize_article (client : Option Client) (article_entry : String) :
    Except PyError String :=
  match client with
  | none => Except.error PyError.nameError
  | some c => Except.ok (c.generate_content model_name (pyformat prompt article_entry))

/-- Model of `analyze_article_collection` (readlib.py lines 142-159): join
the summaries with `"\n\n\n"`, interpolate into `prompt2`, send to the
backend.  Reading the unbound global `client` raises `NameError`. -/
def analyze_article_collection (client : Option Client)
    (articles_summaries : List String) : Except PyError String :=
  let summaries := String.intercalate "\n\n\n" articles_summaries
  match client with
  | none => Except.error PyError.nameError
  | some c => Except.ok (c.generate_content model_name (pyformat prompt2 summaries))

/-- Dynamic Python values appearing at the `filter_articles_by_date_range`
call site in `__main__`. -/
inductive PyVal where
  | vEntries : List Entry → PyVal
  | vDate : Int → PyVal
  | vStr : String → PyVal
deriving DecidableEq

/-- Python positional-argument binding for
`def filter_articles_by_date_range(articles, start_date, end_date)`: a call
with an argument count other than three raises `TypeError` before the body
runs. -/
def filter_articles_by_date_range_apply (args : List PyVal) :
    Except PyError (List Article) :=
  if args.length = 3 then
    match args with
    | [PyVal.vEntries articles, PyVal.vDate start_date, PyVal.vDate end_date] =>
        Except.ok (filter_articles_by_date_range articles start_date end_date)
    | _ => Except.error PyError.typeError
  else Except.error PyError.typeError

/-- The per-source body of the `__main__` loop (readlib.py lines 213-230):
fetch the feed, and when the entry list is truthy call
`filter_articles_by_date_range(all_entries, one_day_ago, today, source_name)`
— four positional arguments.  Errors raised inside the loop are not caught
in `__main__` and abort the run. -/
def process_feed (one_day_ago today : Int) (source_name feed_url : String)
    (outcome : ParseOutcome) : Except PyError (List Article) :=
  match get_articles_from_rss feed_url outcome with
  | Except.error e => Except.error e
  | Except.ok (all_entries, _msgs) =>
      if all_entries.isEmpty then Except.ok []
      else
        filter_articles_by_date_range_apply
          [PyVal.vEntries all_entries, PyVal.vDate one_day_ago,
           PyVal.vDate today, PyVal.vStr source_name]

/-- The sort of readlib.py line 236:
`all_new_articles.sort(key=lambda x: x['published_datetime'], reverse=True)`.
Python `list.sort` is a stable merge sort; with `reverse=True` it orders the
keys descending while equal keys keep their input order, which is
`mergeSort` under the relation "later-or-equal publication time first". -/
def sort_all_new_articles (all_new_articles : List Article) : List Article :=
  all_new_articles.mergeSort
    (fun a b => decide (b.published_datetime.ts ≤ a.published_datetime.ts))

/-- Leading fixed text of `prompt2`, before the interpolation slot. -/
def prompt2_pre : String :=
  "You are a helpful assistant that summarizes scientific articles. " ++
  "Here are many summaries of a collection of articles."

/-- Directive of `prompt2` asking for the major themes. -/
def themes_directive : String :=
  "In a few sentences and concise language, describe the major themes of these articles."

/-- Directive of `prompt2` fixing the bracketed-numeral-link citation style. -/
def citation_directive : String :=
  "Provide links to a few important articles in [[number]](url)] style."

/-- Directive of `prompt2` requiring citations woven into the prose. -/
def inline_directive : String :=
  "The links should be integrated into the text, not listed separately."

/-- Trailing fixed text of `prompt2`, after the interpolation slot. -/
def prompt2_post : String :=
  themes_directive ++ citation_directive ++ inline_directive

/-- The comparison used by the sort of readlib.py line 236, as a named
relation: `a` may come before `b` when `b`'s publication time is at most
`a`'s. -/
def descLE : Article → Article → Bool :=
  fun a b => decide (b.published_datetime.ts ≤ a.published_datetime.ts)

/-- Concrete entry whose `published_parsed` resolves to epoch 864005
(calendar day 10): exercises the inclusive date window. -/
def entryW2 : Entry :=
  ⟨some "Quantum droplets", some "https://example.org/a", some "Nature",
   some "A synopsis", some [], some [], PyField.val ⟨864005⟩, PyField.absent⟩

/-- Concrete entry with `published_parsed = None` and a valid
`updated_parsed`: exercises the fallback resolution. -/
def entryW3 : Entry :=
  ⟨some "Fallback entry", some "https://example.org/b", some "Science",
   some "A synopsis", some [], some [], PyField.pyNone, PyField.val ⟨864005⟩⟩

/-- Concrete entry missing every textual field: exercises the sentinel
fallbacks. -/
def entryW4 : Entry :=
  ⟨none, none, none, none, none, none, PyField.val ⟨864005⟩, PyField.absent⟩

/-- The record produced for `entryW4`. -/
def articleW4 : Article := mkArticle entryW4 (fromtimestamp (mktime ⟨864005⟩))

/-- Concrete entry recovered from a malformed feed. -/
def entryW5 : Entry :=
  ⟨some "Recovered", some "https://example.org/c", none, none, none, none,
   PyField.val ⟨864005⟩, PyField.absent⟩

/-- Concrete malformed feed (bozo bit set) that still carries one entry. -/
def feedW5 : ParsedFeed := ⟨true, "SAXParseException", [entryW5]⟩

/-- Concrete entry for a well-formed feed. -/
def entryW9 : Entry :=
  ⟨some "Arity probe", some "https://example.org/d", none, none, none, none,
   PyField.val ⟨864005⟩, PyField.absent⟩

/-- Concrete well-formed feed with a non-empty entry list. -/
def feedW9 : ParsedFeed := ⟨false, "", [entryW9]⟩

/-- Concrete entry with no synopsis, no content and one tag: exercises the
undocumented defaults of the record literal. -/
def entryW10 : Entry :=
  ⟨some "Defaults probe", some "https://example.org/e", some "Nature",
   none, none, some [⟨"physics"⟩], PyField.val ⟨864005⟩, PyField.absent⟩

/-- The record produced for `entryW10`. -/
def articleW10 : Article := mkArticle entryW10 (fromtimestamp (mktime ⟨864005⟩))

/-! Helper lemmas shared by the claim theorems. -/

lemma substFirstSlot_append (arg r : List Char) :
    ∀ l : List Char, '\x7b' ∉ l →
      substFirstSlot arg (l ++ '\x7b' :: '\x7d' :: r) = l ++ (arg ++ r) := by
  intro l hl
  induction l with
  | nil => simp [substFirstSlot]
  | cons c t ih =>
      have hc : c ≠ '\x7b' := fun h => hl (h ▸ List.mem_cons_self c t)
      have ht : '\x7b' ∉ t := fun h => hl (List.mem_cons_of_mem c h)
      simp [substFirstSlot, hc, ih ht]

lemma pyformat_prompt2 (x : String) :
    pyformat prompt2 x = prompt2_pre ++ x ++ prompt2_post := by
  apply String.ext
  show substFirstSlot x.data prompt2.data = _
  have h2 : prompt2.data = prompt2_pre.data ++ '\x7b' :: '\x7d' :: prompt2_post.data := by
    decide
  rw [h2, substFirstSlot_append x.data prompt2_post.data prompt2_pre.data (by decide)]
  simp

lemma filter_step_eq (s e : Int) (acc : List Article) (entry : Entry) :
    filter_step s e acc entry = acc ++ (entryToArticle? s e entry).toList := by
  unfold filter_step entryToArticle?
  cases resolve_date_struct entry with
  | none => simp
  | some ds =>
      by_cases h : s ≤ (fromtimestamp (mktime ds)).date
          ∧ (fromtimestamp (mktime ds)).date ≤ e
      · simp [h]
      · simp [h]

lemma foldl_filter_step (s e : Int) :
    ∀ (l : List Entry) (acc : List Article),
      l.foldl (filter_step s e) acc = acc ++ l.filterMap (entryToArticle? s e)
  | [], acc => by simp
  | entry :: l, acc => by
      rw [List.foldl_cons, foldl_filter_step s e l, filter_step_eq]
      cases h : entryToArticle? s e entry <;> simp [List.filterMap_cons, h]

lemma filter_eq_filterMap (l : List Entry) (s e : Int) :
    filter_articles_by_date_range l s e = l.filterMap (entryToArticle? s e) := by
  unfold filter_articles_by_date_range
  rw [foldl_filter_step]
  simp

lemma descLE_trans : ∀ (a b c : Article), descLE a b → descLE b c → descLE a c := by
  intro a b c hab hbc
  simp only [descLE, decide_eq_true_eq] at *
  omega

lemma descLE_total : ∀ (a b : Article), descLE a b || descLE b a := by
  intro a b
  simp only [descLE, Bool.or_eq_true, decide_eq_true_eq]
  omega

lemma mem_filter_decomp (s e : Int) (l : List Entry) (a : Article)
    (ha : a ∈ filter_articles_by_date_range l s e) :
    ∃ entry ∈ l, ∃ ds, resolve_date_struct entry = some ds
      ∧ (s ≤ (fromtimestamp (mktime ds)).date ∧ (fromtimestamp (mktime ds)).date ≤ e)
      ∧ a = mkArticle entry (fromtimestamp (mktime ds)) := by
  rw [filter_eq_filterMap] at ha
  obtain ⟨entry, hmem, hsome⟩ := List.mem_filterMap.mp ha
  refine ⟨entry, hmem, ?_⟩
  unfold entryToArticle? at hsome
  split at hsome
  · rename_i ds heq
    split at hsome
    · rename_i hc
      injection hsome with h
      exact ⟨ds, heq, hc, h.symm⟩
    · cases hsome
  · cases hsome

/-! Claim theorems. -/

/-- C1: the claim says that with no credential configured, invoking
`summarize_article` or `analyze_article_collection` does not abort the run
and "summarization unavailable" is detectable apart from empty output.  The
code contradicts this (and its own printed warning "Summarization will be
skipped"): when `GOOGLE_API_KEY` is absent the module-level `try` block
leaves the global name `client` unbound, so both functions raise `NameError`
as soon as they are invoked — there is no skip path and no distinct
unavailability result. -/
theorem c1_missing_credential_summarization_raises :
    init_client (fun _k => Except.ok (Client.mk (fun _m _c => ""))) none = none
    ∧ summarize_article none "entry" = Except.error PyError.nameError
    ∧ analyze_article_collection none ["s1", "s2"] = Except.error PyError.nameError :=
  ⟨rfl, rfl, rfl⟩

/-- C2: `filter_articles_by_date_range` treats each input occurrence
independently (it equals a `filterMap`), and a resolving entry contributes
exactly one record when the local calendar date of its resolved timestamp
lies in `[start_date, end_date]` with both bounds inclusive, and no record
when the date is strictly outside the window. -/
theorem c2_date_window_inclusive (s e : Int) (l : List Entry) (entry : Entry)
    (ds : TimeStruct) (hres : resolve_date_struct entry = some ds) :
    filter_articles_by_date_range l s e = l.filterMap (entryToArticle? s e)
    ∧ (s ≤ (fromtimestamp (mktime ds)).date ∧ (fromtimestamp (mktime ds)).date ≤ e →
        filter_articles_by_date_range [entry] s e
          = [mkArticle entry (fromtimestamp (mktime ds))])
    ∧ (¬ (s ≤ (fromtimestamp (mktime ds)).date ∧ (fromtimestamp (mktime ds)).date ≤ e) →
        filter_articles_by_date_range [entry] s e = []) := by
  refine ⟨filter_eq_filterMap l s e, ?_, ?_⟩
  · intro hin
    rw [filter_eq_filterMap]
    simp [entryToArticle?, hres, hin]
  · intro hout
    rw [filter_eq_filterMap]
    simp only [List.filterMap_cons, List.filterMap_nil, entryToArticle?, hres]
    rw [if_neg hout]

/-- Witness for C2: a concrete entry published at epoch 864005 (day 10) is
kept by the window `[1, 15]` as exactly one record. -/
theorem c2_witness :
    resolve_date_struct entryW2 = some ⟨864005⟩
    ∧ filter_articles_by_date_range [entryW2] 1 15
        = [mkArticle entryW2 (fromtimestamp (mktime ⟨864005⟩))] := by
  refine ⟨by decide, ?_⟩
  exact (c2_date_window_inclusive 1 15 [entryW2] entryW2 ⟨864005⟩ (by decide)).2.1
    (by decide)

/-- C3: date resolution probes `published_parsed` first and falls back to
`updated_parsed` only when the primary is absent or empty (falsy); an entry
where neither field yields a value resolves to nothing and is dropped from
the output wherever it occurs.  No error is possible: the embedded filter is
a total function. -/
theorem c3_timestamp_fallback_and_silent_exclusion (entry : Entry) (s e : Int) :
    (entry.published_parsed.truthy = false
        ↔ entry.published_parsed = PyField.absent ∨ entry.published_parsed = PyField.pyNone)
    ∧ (∀ t, entry.published_parsed = PyField.val t → resolve_date_struct entry = some t)
    ∧ (entry.published_parsed.truthy = false →
        ∀ t, entry.updated_parsed = PyField.val t → resolve_date_struct entry = some t)
    ∧ (entry.published_parsed.truthy = false → entry.updated_parsed.truthy = false →
        resolve_date_struct entry = none
        ∧ ∀ l₁ l₂ : List Entry,
            filter_articles_by_date_range (l₁ ++ entry :: l₂) s e
              = filter_articles_by_date_range (l₁ ++ l₂) s e) := by
  refine ⟨?_, ?_, ?_, ?_⟩
  · cases h : entry.published_parsed <;> simp [PyField.truthy]
  · intro t h
    simp [resolve_date_struct, h, PyField.truthy, PyField.get?]
  · intro h t hu
    unfold resolve_date_struct
    rw [h]
    simp [hu, PyField.truthy, PyField.get?]
  · intro hp hu
    have hnone : resolve_date_struct entry = none := by
      simp [resolve_date_struct, hp, hu]
    refine ⟨hnone, fun l₁ l₂ => ?_⟩
    rw [filter_eq_filterMap, filter_eq_filterMap]
    simp [List.filterMap_append, List.filterMap_cons, entryToArticle?, hnone]

/-- Witness for C3: an entry whose `published_parsed` is `None` resolves
through `updated_parsed`. -/
theorem c3_witness :
    entryW3.published_parsed.truthy = false
    ∧ entryW3.updated_parsed = PyField.val ⟨864005⟩
    ∧ resolve_date_struct entryW3 = some ⟨864005⟩ := by
  refine ⟨by decide, rfl, ?_⟩
  exact (c3_timestamp_fallback_and_silent_exclusion entryW3 1 15).2.2.1 (by decide)
    ⟨864005⟩ rfl

/-- C4: every record in the filtered output comes from an input entry and
substitutes the documented sentinels for missing textual fields: "No title",
"No link" and "Unknown source". -/
theorem c4_sentinel_fallbacks (s e : Int) (l : List Entry) (a : Article)
    (ha : a ∈ filter_articles_by_date_range l s e) :
    ∃ entry ∈ l,
      a.title = entry.title.getD "No title"
      ∧ a.url = entry.link.getD "No link"
      ∧ a.source = entry.source.getD "Unknown source" := by
  obtain ⟨entry, hmem, ds, _, _, hrec⟩ := mem_filter_decomp s e l a ha
  exact ⟨entry, hmem, by simp [hrec, mkArticle]⟩

/-- Witness for C4: the record built from an entry with no textual fields at
all carries the three sentinels. -/
theorem c4_witness :
    ∃ entry ∈ [entryW4],
      articleW4.title = entry.title.getD "No title"
      ∧ articleW4.url = entry.link.getD "No link"
      ∧ articleW4.source = entry.source.getD "Unknown source" :=
  c4_sentinel_fallbacks 1 15 [entryW4] articleW4 (by decide)

/-- C5: `get_articles_from_rss` is total over every parse outcome (it always
returns `Except.ok`, never propagating an exception): a bozo feed produces a
single non-fatal warning and still yields the recovered entries, and a
raised fetch/parse error is reported and converted to the empty list. -/
theorem c5_rss_adapter_total (feed_url : String) (outcome : ParseOutcome) :
    (∃ res, get_articles_from_rss feed_url outcome = Except.ok res)
    ∧ (∀ feed, outcome = ParseOutcome.parsed feed →
        get_articles_from_rss feed_url outcome
          = Except.ok (feed.entries,
              if feed.bozo then [Msg.bozoWarning feed_url feed.bozo_exception]
              else []))
    ∧ (∀ err, outcome = ParseOutcome.raised err →
        get_articles_from_rss feed_url outcome
          = Except.ok ([], [Msg.fetchFailure feed_url err])) := by
  refine ⟨?_, ?_, ?_⟩
  · cases outcome <;> exact ⟨_, rfl⟩
  · rintro feed rfl
    rfl
  · rintro err rfl
    rfl

/-- Witness for C5: a malformed (bozo) feed still returns its recovered
entry and emits exactly one warning. -/
theorem c5_witness :
    get_articles_from_rss "https://www.science.org/rss/news_current.xml"
        (ParseOutcome.parsed feedW5)
      = Except.ok (feedW5.entries,
          [Msg.bozoWarning "https://www.science.org/rss/news_current.xml"
            feedW5.bozo_exception]) := by
  have h := (c5_rss_adapter_total "https://www.science.org/rss/news_current.xml"
      (ParseOutcome.parsed feedW5)).2.1 feedW5 rfl
  simpa [feedW5] using h

/-- C6: the sort of the report stage is a permutation of its input, is
descending in publication timestamp (any record listed earlier has a
publication time greater than or equal to any later one), and is stable:
records with equal publication timestamps keep their input order. -/
theorem c6_sort_descending_stable (l : List Article) :
    List.Perm (sort_all_new_articles l) l
    ∧ (sort_all_new_articles l).Pairwise
        (fun a b => b.published_datetime.ts ≤ a.published_datetime.ts)
    ∧ ∀ t : Int,
        (sort_all_new_articles l).filter (fun a => decide (a.published_datetime.ts = t))
          = l.filter (fun a => decide (a.published_datetime.ts = t)) := by
  refine ⟨List.mergeSort_perm l _, ?_, ?_⟩
  · have h := List.sorted_mergeSort descLE_trans descLE_total l
    exact h.imp (fun hab => by simpa [descLE] using hab)
  · intro t
    set p : Article → Bool := fun a => decide (a.published_datetime.ts = t) with hp
    have hsub : List.Sublist (l.filter p) l := List.filter_sublist l
    have hpair : (l.filter p).Pairwise (fun a b => descLE a b = true) := by
      apply List.pairwise_of_forall_mem_list
      intro a ha b hb
      have ha2 := List.of_mem_filter ha
      have hb2 := List.of_mem_filter hb
      simp only [hp, decide_eq_true_eq] at ha2 hb2
      simp [descLE, ha2, hb2]
    have h1 : List.Sublist (l.filter p) (sort_all_new_articles l) :=
      List.sublist_mergeSort descLE_trans descLE_total hpair hsub
    have h2 : List.Sublist (l.filter p) ((sort_all_new_articles l).filter p) := by
      have h3 := List.Sublist.filter p h1
      have h4 : (l.filter p).filter p = l.filter p := by
        rw [List.filter_eq_self]
        intro a ha
        exact (List.mem_filter.mp ha).2
      rwa [h4] at h3
    have hlen : ((sort_all_new_articles l).filter p).length = (l.filter p).length := by
      have hperm : List.Perm (sort_all_new_articles l) l := List.mergeSort_perm l _
      exact (hperm.filter p).length_eq
    exact (List.Sublist.eq_of_length h2 hlen.symm).symm

/-- C7: `analyze_article_collection` joins the input summaries with the
separator `"\n\n\n"` (two blank lines) and interpolates the joined text
exactly once into the fixed instruction text of `prompt2`: the template
contains exactly one slot, splits as `prompt2_pre ++ slot ++ prompt2_post`,
and its fixed trailing text contains the directive fixing the
bracketed-numeral-link citation style (`[[number]](url)]`) and the directive
that links be woven into the prose rather than listed separately. -/
theorem c7_digest_prompt_composition (c : Client) (articles_summaries : List String) :
    analyze_article_collection (some c) articles_summaries
      = Except.ok (c.generate_content model_name
          (prompt2_pre ++ String.intercalate "\n\n\n" articles_summaries ++ prompt2_post))
    ∧ prompt2 = prompt2_pre ++ "\x7b\x7d" ++ prompt2_post
    ∧ prompt2.data.count '\x7b' = 1
    ∧ prompt2.data.count '\x7d' = 1
    ∧ prompt2_post = themes_directive ++ citation_directive ++ inline_directive
    ∧ citation_directive
        = "Provide links to a few important articles in [[number]](url)] style."
    ∧ inline_directive
        = "The links should be integrated into the text, not listed separately." := by
  refine ⟨?_, rfl, by decide, by decide, rfl, rfl, rfl⟩
  show Except.ok (c.generate_content model_name
      (pyformat prompt2 (String.intercalate "\n\n\n" articles_summaries))) = _
  rw [pyformat_prompt2]

/-- C8: the filter preserves input order: the output is the `filterMap` of
the per-entry contribution over the input sequence, and it distributes over
concatenation, so surviving entries appear in exactly their input relative
order. -/
theorem c8_filter_preserves_order (s e : Int) :
    (∀ l : List Entry,
        filter_articles_by_date_range l s e = l.filterMap (entryToArticle? s e))
    ∧ ∀ l₁ l₂ : List Entry,
        filter_articles_by_date_range (l₁ ++ l₂) s e
          = filter_articles_by_date_range l₁ s e ++ filter_articles_by_date_range l₂ s e := by
  refine ⟨fun l => filter_eq_filterMap l s e, fun l₁ l₂ => ?_⟩
  rw [filter_eq_filterMap, filter_eq_filterMap, filter_eq_filterMap,
    List.filterMap_append]

/-- C9: whenever a feed source yields a non-empty entry list, the
`__main__` loop calls `filter_articles_by_date_range` with four positional
arguments (entries, start date, end date, source name) against a
three-parameter signature, so the call raises `TypeError` instead of
returning filtered articles, and the per-source processing aborts with that
error. -/
theorem c9_main_call_arity_type_error (one_day_ago today : Int)
    (source_name feed_url : String) (feed : ParsedFeed)
    (hne : feed.entries ≠ []) :
    filter_articles_by_date_range_apply
        [PyVal.vEntries feed.entries, PyVal.vDate one_day_ago,
          PyVal.vDate today, PyVal.vStr source_name]
      = Except.error PyError.typeError
    ∧ process_feed one_day_ago today source_name feed_url (ParseOutcome.parsed feed)
      = Except.error PyError.typeError := by
  constructor
  · rfl
  · unfold process_feed get_articles_from_rss
    cases hE : feed.entries with
    | nil => exact absurd hE hne
    | cons a t => simp [hE, filter_articles_by_date_range_apply]

/-- Witness for C9: a concrete well-formed feed with one entry makes the
per-source processing of `__main__` end in `TypeError`. -/
theorem c9_witness :
    process_feed 3 10 "Nature" "http://feeds.nature.com/nature/rss/current"
        (ParseOutcome.parsed feedW9)
      = Except.error PyError.typeError :=
  (c9_main_call_arity_type_error 3 10 "Nature"
    "http://feeds.nature.com/nature/rss/current" feedW9 (by decide)).2

/-- C10: every record in the filtered output is exactly the seven-field
record literal of readlib.py lines 112-120 (the `Article` structure declares
precisely the keys `title`, `url`, `published_datetime`, `source`,
`summary`, `content`, `keywords`), with the undocumented defaults: a missing
feed synopsis becomes "No summary", missing content becomes the empty list,
and missing tags become the empty list — `keywords` is the raw feed tag
list. -/
theorem c10_record_fields_and_defaults (s e : Int) (l : List Entry) (a : Article)
    (ha : a ∈ filter_articles_by_date_range l s e) :
    ∃ entry ∈ l, ∃ ds, resolve_date_struct entry = some ds
      ∧ a = { title := entry.title.getD "No title"
              url := entry.link.getD "No link"
              published_datetime := fromtimestamp (mktime ds)
              source := entry.source.getD "Unknown source"
              summary := entry.summary.getD "No summary"
              content := entry.content.getD []
              keywords := entry.tags.getD [] } := by
  obtain ⟨entry, hmem, ds, hres, _, hrec⟩ := mem_filter_decomp s e l a ha
  exact ⟨entry, hmem, ds, hres, hrec⟩

/-- Witness for C10: a concrete entry with no synopsis, no content and one
raw tag produces the record with "No summary", `[]` and the raw tag list. -/
theorem c10_witness :
    ∃ entry ∈ [entryW10], ∃ ds, resolve_date_struct entry = some ds
      ∧ articleW10 = { title := entry.title.getD "No title"
                       url := entry.link.getD "No link"
                       published_datetime := fromtimestamp (mktime ds)
                       source := entry.source.getD "Unknown source"
                       summary := entry.summary.getD "No summary"
                       content := entry.content.getD []
                       keywords := entry.tags.getD [] } :=
  c10_record_fields_and_defaults 1 15 [entryW10] articleW10 (by decide)

end WRS
